/-
  Verification of the HFTServerInterface request-dispatch core.

  Shallow embedding of:
    - the length-prefix framing codec and session I/O of
      src/transport/BoostAsioSslTransport.cpp,
    - the accept/handshake lifecycle of the same file as a step relation,
    - the CommandRegistry (src/server/CommandRegistry.cpp),
    - the TradingServerFacade error funnel (src/server/TradingServerFacade.cpp),
    - the BaseReport template pipeline (src/services/reports/BaseReport.cpp),
    - the bootstrap registry wiring of src/main.cpp.

  Machine integers (uint32_t, uint8_t) are embedded as Nat with explicit
  `% 2 ^ w`; a right shift `x >> k` is `x / 2 ^ k` and a mask `x & 0xFF`
  is `x % 256`; the big-endian OR of disjoint shifted bytes is their sum.
-/
import Mathlib

namespace HFTServer

/-- A raw byte buffer (`RawBuffer = std::vector<uint8_t>`); each element is
a byte value `< 256` produced by the codec. -/
abbrev RawBuffer := List Nat

/-! ## Framing codec (anonymous namespace of BoostAsioSslTransport.cpp) -/

/-- Source `encodeBE32`: encode a 32-bit value as 4 big-endian bytes.
Source: `{(value >> 24) & 0xFF, (value >> 16) & 0xFF, (value >> 8) & 0xFF,
value & 0xFF}`.  Taking the input as `Nat`, the byte extractions themselves
perform the `uint32_t` truncation. -/
def encodeBE32 (value : Nat) : List Nat :=
  [value / 2 ^ 24 % 256, value / 2 ^ 16 % 256, value / 2 ^ 8 % 256, value % 256]

/-- Source `decodeBE32`: decode 4 big-endian bytes into a 32-bit value.
Source: `(b0 << 24) | (b1 << 16) | (b2 << 8) | b3`; for byte values the
shifted operands occupy disjoint bit ranges, so the OR is the sum. -/
def decodeBE32 (b0 b1 b2 b3 : Nat) : Nat :=
  b0 * 2 ^ 24 + b1 * 2 ^ 16 + b2 * 2 ^ 8 + b3

/-- Modelled from the spec: `MAX_FRAME`, the configured upper bound on a
frame's payload length (suggested default 16 MiB).  The constant appears in
the spec only; `BoostAsioSslTransport.cpp` contains no such bound. -/
def MAX_FRAME : Nat := 16 * 1024 * 1024

theorem decodeBE32_encodeBE32 (v : Nat) (hv : v < 2 ^ 32) :
    decodeBE32 (v / 2 ^ 24 % 256) (v / 2 ^ 16 % 256) (v / 2 ^ 8 % 256) (v % 256) = v := by
  simp only [decodeBE32]
  omega

/-! ## Transport errors and session state -/

/-- Errors surfaced by the transport.  The source throws
`std::runtime_error`; `NotConnected` stands for the
"no active connection" throw at the top of `send`/`receive`, `IoError msg`
for the read/write-failure throws. -/
inductive TransportError where
  | NotConnected
  | IoError (msg : String)
  deriving DecidableEq, Repr

/-- The mutable state of `BoostAsioSslTransport` relevant to the claims:
`m_running`, the number of outstanding `async_accept` operations, whether a
TLS handshake is in flight, and `m_activeSocket` (socket handle or none). -/
structure TransportState where
  running : Bool
  outstandingAccepts : Nat
  handshaking : Bool
  activeSocket : Option Nat
  deriving DecidableEq, Repr

/-- The byte sequence written by `send(buffer)`: the 4-byte big-endian
length header followed by the payload, emitted in one gather write.
The `static_cast<uint32_t>(buffer.size())` truncation is performed by the
byte extractions inside `encodeBE32`. -/
def sendFrame (buffer : RawBuffer) : List Nat :=
  encodeBE32 buffer.length ++ buffer

/-- Source `send`: with no active socket, throws "no active connection";
otherwise writes `sendFrame buffer` to the stream.  Returns the thrown
error or the bytes written, paired with the (unchanged) state. -/
def send (st : TransportState) (buffer : RawBuffer) :
    Except TransportError (List Nat) × TransportState :=
  match st.activeSocket with
  | none => (.error .NotConnected, st)
  | some _ => (.ok (sendFrame buffer), st)

/-- The frame-decoding body of `receive()`, applied to the bytes available
on the stream: read exactly 4 header bytes (error if the stream is shorter),
decode `payloadLen`, return the empty payload when `payloadLen == 0`,
otherwise read exactly `payloadLen` payload bytes (error if the stream
ends first).  There is no size check on `payloadLen`. -/
def receiveFrame (stream : List Nat) : Except TransportError RawBuffer :=
  match stream with
  | b0 :: b1 :: b2 :: b3 :: rest =>
      let payloadLen := decodeBE32 b0 b1 b2 b3
      if payloadLen = 0 then .ok []
      else if rest.length < payloadLen then
        .error (.IoError "receive() payload read failed")
      else .ok (rest.take payloadLen)
  | _ => .error (.IoError "receive() header read failed")

/-- Source `receive`: with no active socket, throws "no active connection";
otherwise decodes one frame from the stream.  Paired with the (unchanged)
state. -/
def receive (st : TransportState) (stream : List Nat) :
    Except TransportError RawBuffer × TransportState :=
  match st.activeSocket with
  | none => (.error .NotConnected, st)
  | some _ => (receiveFrame stream, st)

/-- Core codec fact: a frame whose header advertises `n < 2 ^ 32` and whose
stream carries at least `n` further bytes decodes to the first `n` payload
bytes — for every `n`, with no size cap. -/
theorem receiveFrame_encodeBE32_append (n : Nat) (rest : List Nat)
    (hn : n < 2 ^ 32) (hlen : n ≤ rest.length) :
    receiveFrame (encodeBE32 n ++ rest) = .ok (rest.take n) := by
  simp only [encodeBE32, List.cons_append, List.nil_append, receiveFrame,
    decodeBE32_encodeBE32 n hn]
  rcases Nat.eq_zero_or_pos n with h0 | h0
  · subst h0; simp
  · rw [if_neg (by omega), if_neg (by omega)]

/-! ## Listener lifecycle (acceptNextConnection / doHandshake / stop) -/

/-- Asynchronous completion events delivered to the transport's handlers,
plus the `stop()` call.  `acceptErr true` is an accept completing with
`operation_aborted` (cancellation); `acceptErr false` is any other accept
error. -/
inductive TransportEvent where
  | stopCall
  | acceptOk
  | acceptErr (cancelled : Bool)
  | handshakeOk
  | handshakeErr
  deriving DecidableEq, Repr

/-- One transition of the transport, from the source handlers:
  * `stop()` clears `m_running`, closes the acceptor and drops the active
    socket (a pending accept later completes with `operation_aborted`);
  * accept completion with an error — cancelled or not — returns without
    re-arming (`return; // acceptor was closed — do not re-arm`);
  * accept completion with success starts the TLS handshake and arms
    nothing yet;
  * handshake completion (failure, or success which also publishes the
    socket) re-arms one accept iff `m_running` is still set. -/
def step (s : TransportState) : TransportEvent → TransportState
  | .stopCall =>
      { s with running := false, activeSocket := none }
  | .acceptOk =>
      { s with outstandingAccepts := s.outstandingAccepts - 1, handshaking := true }
  | .acceptErr _ =>
      { s with outstandingAccepts := s.outstandingAccepts - 1 }
  | .handshakeOk =>
      { s with handshaking := false, activeSocket := some 0,
               outstandingAccepts :=
                 s.outstandingAccepts + (if s.running then 1 else 0) }
  | .handshakeErr =>
      { s with handshaking := false,
               outstandingAccepts :=
                 s.outstandingAccepts + (if s.running then 1 else 0) }

/-- State right after `start()`: `m_running` set, one accept armed by
`acceptNextConnection()`, no handshake in flight, no active socket. -/
def initListening : TransportState :=
  { running := true, outstandingAccepts := 1, handshaking := false,
    activeSocket := none }

/-- The transport states reachable from `initListening`.  A completion
handler can only run for an operation that is actually outstanding, hence
the guards on the accept and handshake events. -/
inductive Reachable : TransportState → Prop where
  | init : Reachable initListening
  | stop {s} : Reachable s → Reachable (step s .stopCall)
  | acceptOk {s} : Reachable s → 1 ≤ s.outstandingAccepts →
      Reachable (step s .acceptOk)
  | acceptErr {s} (c : Bool) : Reachable s → 1 ≤ s.outstandingAccepts →
      Reachable (step s (.acceptErr c))
  | handshakeOk {s} : Reachable s → s.handshaking = true →
      Reachable (step s .handshakeOk)
  | handshakeErr {s} : Reachable s → s.handshaking = true →
      Reachable (step s .handshakeErr)

/-- Inductive invariant: there is never more than one outstanding accept,
and none at all while a handshake is in flight. -/
theorem reachable_inv {s : TransportState} (h : Reachable s) :
    s.outstandingAccepts ≤ 1 ∧
      (s.handshaking = true → s.outstandingAccepts = 0) := by
  induction h with
  | init => exact ⟨by simp [initListening], by simp [initListening]⟩
  | stop _ ih => exact ⟨ih.1, ih.2⟩
  | acceptOk _ hg ih =>
      refine ⟨by simp [step]; omega, fun _ => ?_⟩
      simp only [step]
      omega
  | acceptErr c _ hg ih =>
      refine ⟨by simp [step]; omega, fun hh => ?_⟩
      simp only [step] at hh ⊢
      have := ih.2 hh
      omega
  | handshakeOk hr hh ih =>
      refine ⟨?_, by simp [step]⟩
      have h0 := ih.2 hh
      simp only [step]
      split <;> omega
  | handshakeErr hr hh ih =>
      refine ⟨?_, by simp [step]⟩
      have h0 := ih.2 hh
      simp only [step]
      split <;> omega

/-! ## Request-dispatch pipeline -/

/-- Source `RequestType` is `enum class : uint32_t`; the spec treats the opcode
space as an open 32-bit enumeration, so the embedding uses `Nat` values. -/
abbrev RequestType := Nat

namespace RequestType

def GET_MARKET_DATA : RequestType := 0
def CALCULATE : RequestType := 1
def MANIPULATE : RequestType := 2
def GENERATE_REPORT : RequestType := 3

end RequestType

/-- Source `Request`: a typed operation plus binary payload
(include/models/Request.hpp). -/
structure Request where
  type : RequestType
  payload : RawBuffer
  deriving DecidableEq, Repr

/-- Source `Response`: success flag, diagnostic message, binary data
(include/models/Response.hpp). -/
structure Response where
  success : Bool
  message : String
  data : RawBuffer
  deriving DecidableEq, Repr

/-- Source `ReportRequest`: report type plus inclusive ISO-8601 date range
(include/models/ReportRequest.hpp). -/
structure ReportRequest where
  reportType : String
  dateFrom : String
  dateTo : String
  deriving DecidableEq, Repr

/-- A C++ exception as seen by the facade's catch clauses:
`std::out_of_range` (caught first), any other exception derived from
`std::exception` (caught second), or a thrown value not derived from
`std::exception` (caught by neither clause). -/
inductive CppExc where
  | outOfRange (what : String)
  | stdOther (what : String)
  | nonStd
  deriving DecidableEq, Repr

/-- The outcome of running a command's `execute()`: a `Response`, or a
thrown exception. -/
abbrev Cmd := Except CppExc Response

/-- Source `CommandFactory = std::function<std::unique_ptr<ICommand>(const Request&)>`;
the produced command is represented by its `execute()` outcome. -/
abbrev CommandFactory := Request → Cmd

/-- The registry's `std::unordered_map<RequestType, CommandFactory>`,
as an association list with unique keys. -/
abbrev Registry := List (RequestType × CommandFactory)

namespace CommandRegistry

/-- Entries stored under key `k` (an `unordered_map` holds at most one). -/
def countKey (reg : Registry) (k : RequestType) : Nat :=
  (reg.filter (fun p => p.1 = k)).length

/-- Source `registerCommand`: `m_factories[type] = std::move(factory)` — assigns
over the existing entry for `type` if present, otherwise inserts a fresh
one. -/
def registerCommand (reg : Registry) (type : RequestType)
    (factory : CommandFactory) : Registry :=
  if (reg.lookup type).isSome then
    reg.map (fun p => if p.1 = type then (type, factory) else p)
  else
    reg ++ [(type, factory)]

/-- The `what()` of the `std::out_of_range` thrown on a registry miss. -/
def missWhat : String := "No command registered for the given RequestType"

/-- Source `create`: look up `request.type`; throw `std::out_of_range` when no
factory is registered, otherwise invoke the factory on the request and
return the produced command. -/
def create (reg : Registry) (request : Request) : Except CppExc Cmd :=
  match reg.lookup request.type with
  | none => .error (.outOfRange missWhat)
  | some factory => .ok (factory request)

end CommandRegistry

namespace TradingServerFacade

/-- Source `handleRequest`: run `m_registry.create(request)` then the command's
`execute()` inside a `try`; `catch (const std::out_of_range& e)` returns
`{false, "Unknown request type: " + e.what(), {}}`;
`catch (const std::exception& e)` returns
`{false, "Internal server error: " + e.what(), {}}`; an exception not
derived from `std::exception` matches neither clause and propagates. -/
def handleRequest (reg : Registry) (request : Request) :
    Except CppExc Response :=
  let tryBlock : Except CppExc Response :=
    match CommandRegistry.create reg request with
    | .ok cmd => cmd
    | .error e => .error e
  match tryBlock with
  | .ok resp => .ok resp
  | .error (.outOfRange w) =>
      .ok { success := false, message := "Unknown request type: " ++ w, data := [] }
  | .error (.stdOther w) =>
      .ok { success := false, message := "Internal server error: " ++ w, data := [] }
  | .error .nonStd => .error .nonStd

end TradingServerFacade

/-! ## Concrete commands (src/server/commands/*.hpp)

Each command binds one service and the decoded request; `execute()` makes
exactly one call into the bound service and returns its Response verbatim.
A service method is embedded as a function to the call's outcome
(`Response` or thrown exception); a constructed command is represented by
its `execute()` outcome. -/

/-- Source `GetMarketDataCommand`: binds `IMarketDataService::getData` and the
request. -/
structure GetMarketDataCommand where
  service : Request → Cmd
  request : Request

def GetMarketDataCommand.execute (c : GetMarketDataCommand) : Cmd :=
  c.service c.request

/-- Source `CalculationCommand`: binds `ICalculationService::calculate` and the
request. -/
structure CalculationCommand where
  service : Request → Cmd
  request : Request

def CalculationCommand.execute (c : CalculationCommand) : Cmd :=
  c.service c.request

/-- Source `ManipulationCommand`: binds `IManipulationService::manipulate` and the
request. -/
structure ManipulationCommand where
  service : Request → Cmd
  request : Request

def ManipulationCommand.execute (c : ManipulationCommand) : Cmd :=
  c.service c.request

/-- Source `ReportCommand`: binds `IReportService::generateReport` and a
structured `ReportRequest` (not the generic `Request`). -/
structure ReportCommand where
  service : ReportRequest → Cmd
  reportRequest : ReportRequest

def ReportCommand.execute (c : ReportCommand) : Cmd :=
  c.service c.reportRequest

/-! ## Bootstrap wiring (src/main.cpp) -/

/-- The `ReportRequest` fabricated by the `GENERATE_REPORT` factory lambda
in `main.cpp` (placeholder deserialisation; the incoming request is
discarded with `(void)req`). -/
def mainReportRequest : ReportRequest :=
  { reportType := "EndOfDay", dateFrom := "2026-01-01", dateTo := "2026-12-31" }

/-- The registry populated by `main.cpp`: the four factory lambdas
registered in source order.  The first three capture their service and
construct a command from the incoming request; the `GENERATE_REPORT`
factory ignores the request and constructs a `ReportCommand` bound to
`mainReportRequest`. -/
def mainRegistry (marketDataService calculationService manipulationService :
    Request → Cmd) (reportService : ReportRequest → Cmd) : Registry :=
  let r1 := CommandRegistry.registerCommand [] RequestType.GET_MARKET_DATA
    (fun req => (GetMarketDataCommand.mk marketDataService req).execute)
  let r2 := CommandRegistry.registerCommand r1 RequestType.CALCULATE
    (fun req => (CalculationCommand.mk calculationService req).execute)
  let r3 := CommandRegistry.registerCommand r2 RequestType.MANIPULATE
    (fun req => (ManipulationCommand.mk manipulationService req).execute)
  CommandRegistry.registerCommand r3 RequestType.GENERATE_REPORT
    (fun _ => (ReportCommand.mk reportService mainReportRequest).execute)

/-! ## Report template pipeline (BaseReport.cpp)

The three pure-virtual steps are embedded as state-passing functions so
that a concrete subclass's side effects are visible; `generate` is the
literal translation of the three sequential calls in
`BaseReport::generate`. -/

/-- Source `Report = std::vector<std::string>`. -/
abbrev Report := List String

/-- Source `ReportData = std::vector<std::string>`. -/
abbrev ReportData := List String

/-- The overrideable steps of a concrete `BaseReport` subclass, each able
to act on ambient state `σ` (covering any side effects an override may
perform). -/
structure ReportSteps (σ : Type) where
  fetchData : ReportRequest → σ → ReportData × σ
  computeReport : ReportData → σ → ReportData × σ
  formatStep : ReportData → σ → Report × σ

/-- Source `BaseReport::generate`: `rawData = fetchData(request)`;
`computedData = computeReport(rawData)`; `return format(computedData)`. -/
def BaseReport.generate {σ : Type} (impl : ReportSteps σ)
    (request : ReportRequest) (s : σ) : Report × σ :=
  let r1 := impl.fetchData request s
  let rawData := r1.1
  let r2 := impl.computeReport rawData r1.2
  let computedData := r2.1
  impl.formatStep computedData r2.2

/-- Observable events of a report subclass, for asserting call order (the
mock-subclass technique the spec describes). -/
inductive ReportEvent where
  | fetchCall (request : ReportRequest)
  | computeCall (data : ReportData)
  | formatCall (data : ReportData)
  deriving DecidableEq, Repr

/-- A subclass whose steps compute with the pure functions `f`, `g`, `h`
and record each invocation and its argument in an event trace. -/
def tracingReport (f : ReportRequest → ReportData) (g : ReportData → ReportData)
    (h : ReportData → Report) : ReportSteps (List ReportEvent) where
  fetchData := fun request tr => (f request, tr ++ [.fetchCall request])
  computeReport := fun data tr => (g data, tr ++ [.computeCall data])
  formatStep := fun data tr => (h data, tr ++ [.formatCall data])

/-! ## Registry lemmas -/

namespace CommandRegistry

theorem keys_map_replace (reg : Registry) (k : RequestType) (f : CommandFactory) :
    (reg.map (fun p => if p.1 = k then (k, f) else p)).map Prod.fst =
      reg.map Prod.fst := by
  induction reg with
  | nil => simp
  | cons hd tl ih =>
      by_cases h : hd.1 = k
      · simp [h, ih]
      · simp [h, ih]

theorem lookup_map_replace (reg : Registry) (k : RequestType) (f : CommandFactory) :
    (reg.map (fun p => if p.1 = k then (k, f) else p)).lookup k =
      if (reg.lookup k).isSome then some f else none := by
  induction reg with
  | nil => simp
  | cons hd tl ih =>
      obtain ⟨a, b⟩ := hd
      simp only [List.map_cons]
      by_cases h : a = k
      · subst h
        rw [if_pos (show (a, b).1 = a from rfl)]
        simp [List.lookup]
      · rw [if_neg (show ¬ (a, b).1 = k from h)]
        have hb : (k == a) = false := by simp [Ne.symm h]
        simp only [List.lookup_cons, hb, ih]

theorem lookup_append_of_none (l1 l2 : Registry) (k : RequestType)
    (h : l1.lookup k = none) : (l1 ++ l2).lookup k = l2.lookup k := by
  induction l1 with
  | nil => simp
  | cons hd tl ih =>
      obtain ⟨a, b⟩ := hd
      by_cases hk : k = a
      · subst hk
        simp [List.lookup] at h
      · have hb : (k == a) = false := by simp [hk]
        simp only [List.cons_append, List.lookup, hb] at h ⊢
        exact ih h

theorem countKey_eq_count (reg : Registry) (k : RequestType) :
    countKey reg k = (reg.map Prod.fst).count k := by
  induction reg with
  | nil => simp [countKey]
  | cons hd tl ih =>
      by_cases h : hd.1 = k
      · simp [countKey, List.count_cons, h] at ih ⊢
        omega
      · simp [countKey, List.count_cons, h, Ne.symm h] at ih ⊢
        exact ih

theorem lookup_isSome_iff_countKey_pos (reg : Registry) (k : RequestType) :
    (reg.lookup k).isSome ↔ 0 < countKey reg k := by
  induction reg with
  | nil => simp [countKey]
  | cons hd tl ih =>
      by_cases h : hd.1 = k
      · simp [List.lookup, h, countKey]
      · have hb : (k == hd.1) = false := by simp [Ne.symm h]
        simp [List.lookup, hb, countKey, h] at ih ⊢
        exact ih

theorem lookup_registerCommand_self (reg : Registry) (k : RequestType)
    (f : CommandFactory) : (registerCommand reg k f).lookup k = some f := by
  unfold registerCommand
  by_cases h : (reg.lookup k).isSome
  · simp [h, lookup_map_replace]
  · rw [if_neg h, lookup_append_of_none]
    · simp [List.lookup]
    · exact Option.not_isSome_iff_eq_none.mp h

theorem countKey_registerCommand_self (reg : Registry) (k : RequestType)
    (f : CommandFactory) (h : countKey reg k ≤ 1) :
    countKey (registerCommand reg k f) k = 1 := by
  unfold registerCommand
  by_cases hs : (reg.lookup k).isSome
  · rw [if_pos hs, countKey_eq_count, keys_map_replace, ← countKey_eq_count]
    have := (lookup_isSome_iff_countKey_pos reg k).mp hs
    omega
  · rw [if_neg hs, countKey_eq_count, List.map_append, List.count_append,
      ← countKey_eq_count]
    have h0 : ¬ 0 < countKey reg k :=
      fun hc => hs ((lookup_isSome_iff_countKey_pos reg k).mpr hc)
    simp [List.count_singleton]
    omega

end CommandRegistry

/-! ## Facade case lemmas -/

namespace TradingServerFacade

theorem handleRequest_miss (reg : Registry) (req : Request)
    (h : reg.lookup req.type = none) :
    handleRequest reg req =
      .ok { success := false,
            message := "Unknown request type: " ++ CommandRegistry.missWhat,
            data := [] } := by
  simp [handleRequest, CommandRegistry.create, h]

theorem handleRequest_ok (reg : Registry) (req : Request) (f : CommandFactory)
    (hf : reg.lookup req.type = some f) (resp : Response)
    (hr : f req = .ok resp) : handleRequest reg req = .ok resp := by
  simp [handleRequest, CommandRegistry.create, hf, hr]

theorem handleRequest_outOfRange (reg : Registry) (req : Request)
    (f : CommandFactory) (hf : reg.lookup req.type = some f) (w : String)
    (hr : f req = .error (.outOfRange w)) :
    handleRequest reg req =
      .ok { success := false, message := "Unknown request type: " ++ w,
            data := [] } := by
  simp [handleRequest, CommandRegistry.create, hf, hr]

theorem handleRequest_stdOther (reg : Registry) (req : Request)
    (f : CommandFactory) (hf : reg.lookup req.type = some f) (w : String)
    (hr : f req = .error (.stdOther w)) :
    handleRequest reg req =
      .ok { success := false, message := "Internal server error: " ++ w,
            data := [] } := by
  simp [handleRequest, CommandRegistry.create, hf, hr]

theorem handleRequest_nonStd (reg : Registry) (req : Request)
    (f : CommandFactory) (hf : reg.lookup req.type = some f)
    (hr : f req = .error .nonStd) :
    handleRequest reg req = .error .nonStd := by
  simp [handleRequest, CommandRegistry.create, hf, hr]

end TradingServerFacade

/-! ## Concrete factories used by witnesses -/

/-- A factory whose command throws an exception not derived from
`std::exception` (e.g. `throw 42;`). -/
def nonStdThrowingFactory : CommandFactory := fun _ => .error .nonStd

/-- A factory whose command throws a `std::exception` other than
`std::out_of_range`. -/
def stdThrowingFactory : CommandFactory := fun _ => .error (.stdOther "stub failure")

/-- A factory whose command's bound service itself throws
`std::out_of_range`. -/
def outOfRangeThrowingFactory : CommandFactory :=
  fun _ => .error (.outOfRange "index out of range in service")

/-- A factory whose command returns normally. -/
def okFactory : CommandFactory :=
  fun _ => .ok { success := true, message := "from f2", data := [] }

/-! ## Claims -/

/-- C4: for every payload `P` with `|P| ≤ MAX_FRAME`, decoding the frame
produced by encoding `P` (4-byte big-endian length prefix counting only
payload bytes, then the payload) yields exactly `P`; the empty payload is
covered by the quantifier (`N = 0` is legal and round-trips). -/
theorem frame_roundtrip (P : RawBuffer) (h : P.length ≤ MAX_FRAME) :
    receiveFrame (sendFrame P) = .ok P := by
  have h32 : P.length < 2 ^ 32 := by
    have : MAX_FRAME < 2 ^ 32 := by norm_num [MAX_FRAME]
    omega
  simpa [sendFrame] using
    receiveFrame_encodeBE32_append P.length P h32 le_rfl

/-- Witness for C4 at the empty payload and at `[7, 8, 9]`. -/
theorem frame_roundtrip_witness :
    (([] : RawBuffer).length ≤ MAX_FRAME ∧
      receiveFrame (sendFrame []) = .ok ([] : RawBuffer)) ∧
    (([7, 8, 9] : RawBuffer).length ≤ MAX_FRAME ∧
      receiveFrame (sendFrame [7, 8, 9]) = .ok ([7, 8, 9] : RawBuffer)) :=
  ⟨⟨by decide, frame_roundtrip [] (by decide)⟩,
   ⟨by decide, frame_roundtrip [7, 8, 9] (by decide)⟩⟩

/-- C1 (counterexample): with an active session, a frame whose header
advertises `MAX_FRAME + 1` bytes is not rejected: `receive` allocates and
returns a payload of that length instead of failing with `FrameTooLarge`
(the source performs no size check at all). -/
theorem receive_no_size_check_counterexample :
    MAX_FRAME < MAX_FRAME + 1 ∧
    (receive { running := true, outstandingAccepts := 0, handshaking := false,
               activeSocket := some 0 }
        (encodeBE32 (MAX_FRAME + 1) ++ List.replicate (MAX_FRAME + 1) 0)).1
      = .ok (List.replicate (MAX_FRAME + 1) 0) := by
  refine ⟨Nat.lt_succ_self _, ?_⟩
  simp only [receive]
  rw [receiveFrame_encodeBE32_append (MAX_FRAME + 1) _ (by norm_num [MAX_FRAME])
    (by simp)]
  simp

/-- C1 (amended): `receive` enforces no upper bound on the advertised
length: with an active session, for every advertised `N < 2 ^ 32`, if the
stream supplies at least `N` payload bytes then `receive` returns the
first `N` of them — including every `N > MAX_FRAME`; no `FrameTooLarge`
failure exists. -/
theorem receive_returns_any_advertised_length (st : TransportState)
    (sock n : Nat) (rest : List Nat) (hs : st.activeSocket = some sock)
    (hn : n < 2 ^ 32) (hlen : n ≤ rest.length) :
    (receive st (encodeBE32 n ++ rest)).1 = .ok (rest.take n) := by
  simp only [receive, hs]
  exact receiveFrame_encodeBE32_append n rest hn hlen

/-- Witness for the amended C1 at `N = MAX_FRAME + 1`. -/
theorem receive_returns_any_advertised_length_witness :
    ({ running := true, outstandingAccepts := 0, handshaking := false,
       activeSocket := some 0 } : TransportState).activeSocket = some 0 ∧
    MAX_FRAME + 1 < 2 ^ 32 ∧
    MAX_FRAME + 1 ≤ (List.replicate (MAX_FRAME + 1) 0).length ∧
    (receive { running := true, outstandingAccepts := 0, handshaking := false,
               activeSocket := some 0 }
        (encodeBE32 (MAX_FRAME + 1) ++ List.replicate (MAX_FRAME + 1) 0)).1
      = .ok ((List.replicate (MAX_FRAME + 1) 0).take (MAX_FRAME + 1)) :=
  ⟨rfl, by decide, by simp,
   receive_returns_any_advertised_length _ 0 _ _ rfl (by decide) (by simp)⟩

/-- C8: with no active session, `send` and `receive` both fail with
`NotConnected` before any I/O — no bytes are written or consumed — and the
transport state is returned unchanged. -/
theorem send_receive_not_connected (st : TransportState) (buffer : RawBuffer)
    (stream : List Nat) (h : st.activeSocket = none) :
    send st buffer = (.error .NotConnected, st) ∧
      receive st stream = (.error .NotConnected, st) := by
  constructor <;> simp [send, receive, h]

/-- Witness for C8 at a concrete torn-down state. -/
theorem send_receive_not_connected_witness :
    ({ running := false, outstandingAccepts := 0, handshaking := false,
       activeSocket := none } : TransportState).activeSocket = none ∧
    send { running := false, outstandingAccepts := 0, handshaking := false,
           activeSocket := none } [1, 2] =
      (.error .NotConnected,
       { running := false, outstandingAccepts := 0, handshaking := false,
         activeSocket := none }) ∧
    receive { running := false, outstandingAccepts := 0, handshaking := false,
              activeSocket := none } [9] =
      (.error .NotConnected,
       { running := false, outstandingAccepts := 0, handshaking := false,
         activeSocket := none }) :=
  ⟨rfl,
   (send_receive_not_connected _ [1, 2] [9] rfl).1,
   (send_receive_not_connected _ [1, 2] [9] rfl).2⟩

/-- C5: for every request whose opcode has no registered factory, the
registry's `create` throws `std::out_of_range` (the `UnknownOpcode`
failure), and `handleRequest` returns `success = false`, a message that is
`"Unknown request type: "` followed by the exception's `what()`, and empty
data. -/
theorem unknown_opcode_response (reg : Registry) (req : Request)
    (h : reg.lookup req.type = none) :
    CommandRegistry.create reg req =
        .error (.outOfRange CommandRegistry.missWhat) ∧
    TradingServerFacade.handleRequest reg req =
      .ok { success := false,
            message := "Unknown request type: " ++ CommandRegistry.missWhat,
            data := [] } :=
  ⟨by simp [CommandRegistry.create, h],
   TradingServerFacade.handleRequest_miss reg req h⟩

/-- Witness for C5: the spec's scenario S3, opcode 42 against the empty
registry. -/
theorem unknown_opcode_response_witness :
    (([] : Registry).lookup (42 : RequestType) = none) ∧
    CommandRegistry.create [] { type := 42, payload := [] } =
        .error (.outOfRange CommandRegistry.missWhat) ∧
    TradingServerFacade.handleRequest [] { type := 42, payload := [] } =
      .ok { success := false,
            message := "Unknown request type: " ++ CommandRegistry.missWhat,
            data := [] } :=
  ⟨rfl,
   (unknown_opcode_response [] { type := 42, payload := [] } rfl).1,
   (unknown_opcode_response [] { type := 42, payload := [] } rfl).2⟩

/-- C2 (counterexample): `handleRequest` can propagate an exception: the
facade's clauses catch only `std::out_of_range` and `std::exception`, so a
command throwing a value not derived from `std::exception` escapes to the
caller instead of producing an "Internal server error: " Response. -/
theorem handleRequest_propagates_counterexample :
    TradingServerFacade.handleRequest [(0, nonStdThrowingFactory)]
        { type := 0, payload := [] } = .error .nonStd :=
  TradingServerFacade.handleRequest_nonStd _ _ nonStdThrowingFactory rfl rfl

/-- C2 (amended): for every request whose opcode is registered,
`handleRequest` never propagates an exception *derived from*
`std::exception`: a normal Response is returned untouched; a
`std::out_of_range` yields `success=false` with an
"Unknown request type: " message; any other `std::exception` yields
`success=false`, a message beginning "Internal server error: ", and empty
data; but an exception not derived from `std::exception` is caught by
neither clause and propagates to the caller. -/
theorem handleRequest_error_funnel (reg : Registry) (req : Request)
    (f : CommandFactory) (hf : reg.lookup req.type = some f) :
    (∀ resp, f req = .ok resp →
        TradingServerFacade.handleRequest reg req = .ok resp) ∧
    (∀ w, f req = .error (.outOfRange w) →
        TradingServerFacade.handleRequest reg req =
          .ok { success := false, message := "Unknown request type: " ++ w,
                data := [] }) ∧
    (∀ w, f req = .error (.stdOther w) →
        TradingServerFacade.handleRequest reg req =
          .ok { success := false, message := "Internal server error: " ++ w,
                data := [] }) ∧
    (f req = .error .nonStd →
        TradingServerFacade.handleRequest reg req = .error .nonStd) :=
  ⟨fun resp hr => TradingServerFacade.handleRequest_ok reg req f hf resp hr,
   fun w hr => TradingServerFacade.handleRequest_outOfRange reg req f hf w hr,
   fun w hr => TradingServerFacade.handleRequest_stdOther reg req f hf w hr,
   fun hr => TradingServerFacade.handleRequest_nonStd reg req f hf hr⟩

/-- Witness for the amended C2: a service throwing `std::runtime_error`
(scenario S2) is funnelled into "Internal server error: …". -/
theorem handleRequest_error_funnel_witness :
    (([(1, stdThrowingFactory)] : Registry).lookup 1 = some stdThrowingFactory) ∧
    TradingServerFacade.handleRequest [(1, stdThrowingFactory)]
        { type := 1, payload := [] } =
      .ok { success := false,
            message := "Internal server error: " ++ "stub failure",
            data := [] } :=
  ⟨rfl,
   (handleRequest_error_funnel [(1, stdThrowingFactory)]
       { type := 1, payload := [] } stdThrowingFactory rfl).2.2.1
     "stub failure" rfl⟩

/-- C7: registering `f1` then `f2` under the same key `k` leaves a
registry in which `create` on a request with opcode `k` invokes `f2`
(last write wins), and which holds exactly one entry for `k`.  The
hypothesis `countKey reg k ≤ 1` is the `unordered_map` key-uniqueness
invariant of the starting registry. -/
theorem register_last_write_wins (reg : Registry) (k : RequestType)
    (f1 f2 : CommandFactory) (req : Request)
    (hwf : CommandRegistry.countKey reg k ≤ 1) (hk : req.type = k) :
    CommandRegistry.create
        (CommandRegistry.registerCommand
          (CommandRegistry.registerCommand reg k f1) k f2) req = .ok (f2 req) ∧
    CommandRegistry.countKey
        (CommandRegistry.registerCommand
          (CommandRegistry.registerCommand reg k f1) k f2) k = 1 := by
  subst hk
  refine ⟨?_, ?_⟩
  · simp [CommandRegistry.create, CommandRegistry.lookup_registerCommand_self]
  · exact CommandRegistry.countKey_registerCommand_self _ _ _
      (le_of_eq (CommandRegistry.countKey_registerCommand_self _ _ _ hwf))

/-- Witness for C7: double registration under key 5 on the empty
registry. -/
theorem register_last_write_wins_witness :
    CommandRegistry.countKey [] 5 ≤ 1 ∧
    ({ type := 5, payload := [] } : Request).type = 5 ∧
    CommandRegistry.create
        (CommandRegistry.registerCommand
          (CommandRegistry.registerCommand [] 5 nonStdThrowingFactory) 5 okFactory)
        { type := 5, payload := [] } = .ok (okFactory { type := 5, payload := [] }) ∧
    CommandRegistry.countKey
        (CommandRegistry.registerCommand
          (CommandRegistry.registerCommand [] 5 nonStdThrowingFactory) 5 okFactory)
        5 = 1 :=
  ⟨Nat.zero_le 1, rfl,
   (register_last_write_wins [] 5 nonStdThrowingFactory okFactory
       { type := 5, payload := [] } (Nat.zero_le 1) rfl).1,
   (register_last_write_wins [] 5 nonStdThrowingFactory okFactory
       { type := 5, payload := [] } (Nat.zero_le 1) rfl).2⟩

/-- C9: the factory `main.cpp` registers for `GENERATE_REPORT` ignores the
request payload and always constructs a `ReportCommand` bound to the fixed
`ReportRequest {"EndOfDay", "2026-01-01", "2026-12-31"}`; hence with the
same services, `handleRequest` produces identical results for any two
payloads (two-run noninterference). -/
theorem generate_report_ignores_payload (mds cs ms : Request → Cmd)
    (rs : ReportRequest → Cmd) (p1 p2 : RawBuffer) :
    CommandRegistry.create (mainRegistry mds cs ms rs)
        { type := RequestType.GENERATE_REPORT, payload := p1 }
      = .ok (ReportCommand.mk rs mainReportRequest).execute ∧
    TradingServerFacade.handleRequest (mainRegistry mds cs ms rs)
        { type := RequestType.GENERATE_REPORT, payload := p1 }
      = TradingServerFacade.handleRequest (mainRegistry mds cs ms rs)
        { type := RequestType.GENERATE_REPORT, payload := p2 } :=
  ⟨rfl, rfl⟩

/-- C10 (implicit): the facade distinguishes a registry miss from other
failures solely by the exception type `std::out_of_range`; a registered
command whose service throws `std::out_of_range` is therefore reported as
"Unknown request type: …", not "Internal server error: …". -/
theorem service_out_of_range_misreported (reg : Registry) (req : Request)
    (f : CommandFactory) (hf : reg.lookup req.type = some f) (w : String)
    (hr : f req = .error (.outOfRange w)) :
    TradingServerFacade.handleRequest reg req =
      .ok { success := false, message := "Unknown request type: " ++ w,
            data := [] } :=
  TradingServerFacade.handleRequest_outOfRange reg req f hf w hr

/-- Witness for C10: a registered factory whose service throws
`std::out_of_range`. -/
theorem service_out_of_range_misreported_witness :
    (([(0, outOfRangeThrowingFactory)] : Registry).lookup 0 =
        some outOfRangeThrowingFactory) ∧
    outOfRangeThrowingFactory { type := 0, payload := [] } =
        .error (.outOfRange "index out of range in service") ∧
    TradingServerFacade.handleRequest [(0, outOfRangeThrowingFactory)]
        { type := 0, payload := [] } =
      .ok { success := false,
            message := "Unknown request type: " ++ "index out of range in service",
            data := [] } :=
  ⟨rfl, rfl,
   service_out_of_range_misreported [(0, outOfRangeThrowingFactory)]
     { type := 0, payload := [] } outOfRangeThrowingFactory rfl
     "index out of range in service" rfl⟩

/-- C6: `BaseReport::generate` invokes exactly the three overrideable
steps in the order `fetchData → computeReport → format`, `fetchData`
receives the request, each later step receives exactly the previous
step's output, `generate` returns `format`'s result, and the recorded
trace shows no other effect. -/
theorem generate_pipeline_order (f : ReportRequest → ReportData)
    (g : ReportData → ReportData) (h : ReportData → Report)
    (request : ReportRequest) :
    BaseReport.generate (tracingReport f g h) request [] =
      (h (g (f request)),
       [.fetchCall request, .computeCall (f request),
        .formatCall (g (f request))]) := rfl

/-- C3 (counterexample): in the reachable post-`start()` state — running,
one outstanding accept — an accept completion with a
failed-but-not-cancelled error arms no new accept (the handler returns
without re-arming on every accept error), refuting "exactly one new accept
is armed". -/
theorem accept_error_no_rearm_counterexample :
    Reachable initListening ∧
    initListening.running = true ∧
    initListening.outstandingAccepts = 1 ∧
    step initListening (.acceptErr false) =
      { running := true, outstandingAccepts := 0, handshaking := false,
        activeSocket := none } :=
  ⟨.init, rfl, rfl, rfl⟩

/-- C3 (amended): in every reachable state there is at most one
outstanding accept; an accept completion — successful, cancelled, or
failed otherwise — consumes the outstanding accept and arms none by
itself; exactly one new accept is armed upon handshake completion
(successful or failed) and only while the listener is running. -/
theorem accept_loop_invariant_amended (s : TransportState) (h : Reachable s) :
    s.outstandingAccepts ≤ 1 ∧
    (∀ c, (step s (.acceptErr c)).outstandingAccepts =
        s.outstandingAccepts - 1) ∧
    ((step s .acceptOk).outstandingAccepts = s.outstandingAccepts - 1) ∧
    ((step s .handshakeOk).outstandingAccepts =
        s.outstandingAccepts + (if s.running then 1 else 0)) ∧
    ((step s .handshakeErr).outstandingAccepts =
        s.outstandingAccepts + (if s.running then 1 else 0)) :=
  ⟨(reachable_inv h).1, fun _ => rfl, rfl, rfl, rfl⟩

/-- Witness for the amended C3 at the post-`start()` state. -/
theorem accept_loop_invariant_amended_witness :
    initListening.outstandingAccepts ≤ 1 ∧
    (∀ c, (step initListening (.acceptErr c)).outstandingAccepts =
        initListening.outstandingAccepts - 1) ∧
    ((step initListening .acceptOk).outstandingAccepts =
        initListening.outstandingAccepts - 1) ∧
    ((step initListening .handshakeOk).outstandingAccepts =
        initListening.outstandingAccepts + (if initListening.running then 1 else 0)) ∧
    ((step initListening .handshakeErr).outstandingAccepts =
        initListening.outstandingAccepts + (if initListening.running then 1 else 0)) :=
  accept_loop_invariant_amended initListening .init

end HFTServer
